import Mathlib

/-!
Verification development for the hotspot-billing server (`server.js`).

The server is a captive-portal billing bridge: it sells time-limited
internet access plans, collects M-Pesa mobile-money payment via an STK
push, and provisions a MikroTik access controller.  This file shallowly
embeds the data model and the operations of `server.js` and proves
properties about them:

* `formatDurationForRouterOS` — the duration normalizer (lines 102-116),
  including a faithful model of the four JavaScript regular-expression
  searches it performs;
* `connectMikrotik` — the controller session manager (lines 62-92);
* `createHotspotUser` — the entitlement provisioner (lines 163-175);
* the `/pay` phone-validation stage (lines 200-210);
* the `/callback` webhook handler (lines 246-301), including the
  transaction status update, plan resolution by amount, the user upsert,
  the `active_until` stacking update, and the controller command trace.

Database queries are modelled over explicit row lists; `LIMIT 1` without
`ORDER BY` is modelled as the first row in table order.  Timestamps are
integers (seconds); intervals are integer second counts.
-/

namespace HotspotBilling

/-! ### Character classes used by the JavaScript regexes

`\d` in JavaScript is exactly `[0-9]`; `\s` matches ASCII whitespace
(space, tab, newline, vertical tab, form feed, carriage return) plus
non-breaking space; the other Unicode space code points cannot occur in
the interval strings the database hands to the normalizer and are not
modelled. -/

def digitChars : List Char := ['0', '1', '2', '3', '4', '5', '6', '7', '8', '9']

def isDigitChar (c : Char) : Bool := decide (c ∈ digitChars)

def isJsSpace (c : Char) : Bool :=
  c = ' ' || c = '\t' || c = '\n' || c = '\r' ||
  c = Char.ofNat 11 || c = Char.ofNat 12 || c = Char.ofNat 160

/-- `parseInt(ds, 10)` on a non-empty run of decimal digits. -/
def digitsToNat (ds : List Char) : Nat :=
  ds.foldl (fun a c => a * 10 + (c.toNat - 48)) 0

/-- Renders a natural number in decimal, as JavaScript template
interpolation `${n}` does. -/
def natToChars (n : Nat) : List Char := (Nat.repr n).data

/-- `String.prototype.trim()` (ASCII whitespace model). -/
def jsTrim (l : List Char) : List Char :=
  ((l.dropWhile isJsSpace).reverse.dropWhile isJsSpace).reverse

/-- `String.prototype.toLowerCase()` on the ASCII range. -/
def jsToLowerChar (c : Char) : Char :=
  if 'A' ≤ c ∧ c ≤ 'Z' then Char.ofNat (c.toNat + 32) else c

/-! ### The four regex searches of `formatDurationForRouterOS`

`s.match(/(\d+)\s*day/)`, `s.match(/(\d+)\s*hour/)` and
`s.match(/(\d+)\s*min/)` all have the shape "digits, optional spaces, a
literal word".  For such a pattern greedy maximal munch coincides with
the regex engine's backtracking search at each start position (shrinking
the digit run or the space run puts a digit or a space where the literal's
first letter must be), so the leftmost match is found by trying maximal
munch at each successive start position. -/

def matchLit : List Char → List Char → Option (List Char)
  | [], rest => some rest
  | _ :: _, [] => none
  | l :: ls, c :: cs => if c = l then matchLit ls cs else none

/-- Try `(\d+)\s*<lit>` anchored at the start of `s`; returns the numeric
capture. -/
def tryNumLitAt (lit : List Char) (s : List Char) : Option Nat :=
  let ds := s.takeWhile isDigitChar
  if ds.isEmpty then none
  else
    let rest := (s.dropWhile isDigitChar).dropWhile isJsSpace
    match matchLit lit rest with
    | some _ => some (digitsToNat ds)
    | none => none

/-- Leftmost match of `(\d+)\s*<lit>` in `s`. -/
def findNumLit (lit : List Char) : List Char → Option Nat
  | [] => none
  | c :: cs =>
    match tryNumLitAt lit (c :: cs) with
    | some n => some n
    | none => findNumLit lit cs

/-- Take exactly `n` decimal digits from the front of `s`. -/
def takeExactDigits : Nat → List Char → Option (List Char × List Char)
  | 0, s => some ([], s)
  | _ + 1, [] => none
  | n + 1, c :: cs =>
    if isDigitChar c then
      match takeExactDigits n cs with
      | some (ds, rest) => some (c :: ds, rest)
      | none => none
    else none

/-- Try `(\d{k}):(\d{2}):(\d{2})` anchored at the start of `s`. -/
def tryTimeWith (k : Nat) (s : List Char) : Option (Nat × Nat × Nat) :=
  match takeExactDigits k s with
  | none => none
  | some (h, rest) =>
    match rest with
    | [] => none
    | c :: rest2 =>
      if c = ':' then
        match takeExactDigits 2 rest2 with
        | none => none
        | some (m, rest3) =>
          match rest3 with
          | [] => none
          | c2 :: rest4 =>
            if c2 = ':' then
              match takeExactDigits 2 rest4 with
              | none => none
              | some (sec, _) => some (digitsToNat h, digitsToNat m, digitsToNat sec)
            else none
      else none

/-- `(\d{1,2}):(\d{2}):(\d{2})` anchored at the start of `s`: the greedy
quantifier tries two digits first, then backtracks to one. -/
def tryTimeAt (s : List Char) : Option (Nat × Nat × Nat) :=
  match tryTimeWith 2 s with
  | some r => some r
  | none => tryTimeWith 1 s

/-- Leftmost match of `s.match(/(\d{1,2}):(\d{2}):(\d{2})/)`. -/
def findTime : List Char → Option (Nat × Nat × Nat)
  | [] => none
  | c :: cs =>
    match tryTimeAt (c :: cs) with
    | some r => some r
    | none => findTime cs

/-! ### The normalizer itself (`server.js` lines 102-116) -/

/-- The character class of the final guard `/^[0-9dhms]+$/`. -/
def isTokenChar (c : Char) : Bool :=
  isDigitChar c || c = 'd' || c = 'h' || c = 'm' || c = 's'

/-- `/^[0-9dhms]+$/.test(out) ? out : null`. -/
def gateToken (out : List Char) : Option String :=
  if out ≠ [] ∧ out.all isTokenChar then some (String.mk out) else none

/-- Builds `out` from the trimmed, lowercased character list:
`dayMatch` contributes `<N>d`; `timeMatch` contributes `<H>h<M>m`
(the seconds capture is never used); only when both are absent does
`hrText` contribute `<N>h`, and only when all of those are absent does
`minText` contribute `<N>m`. -/
def rawOut (s : List Char) : List Char :=
  let dayMatch := findNumLit ['d', 'a', 'y'] s
  let timeMatch := findTime s
  let hrText := findNumLit ['h', 'o', 'u', 'r'] s
  let minText := findNumLit ['m', 'i', 'n'] s
  let out1 := match dayMatch with
    | some n => natToChars n ++ ['d']
    | none => []
  let out2 := out1 ++ (match timeMatch with
    | some (h, m, _) => natToChars h ++ ['h'] ++ natToChars m ++ ['m']
    | none => [])
  let out3 := if out2 = [] then
      (match hrText with
       | some n => natToChars n ++ ['h']
       | none => [])
    else out2
  if out3 = [] then
    (match minText with
     | some n => natToChars n ++ ['m']
     | none => [])
  else out3

/-- `formatDurationForRouterOS` (`server.js` lines 102-116): `!raw`
short-circuits on the empty string; otherwise the input is trimmed,
lowercased and scanned by the four regexes, and the assembled token is
returned only if it matches `/^[0-9dhms]+$/`. -/
def formatDurationForRouterOS (raw : String) : Option String :=
  if raw = "" then none
  else gateToken (rawOut ((jsTrim raw.data).map jsToLowerChar))

/-! ### Data model

Rows of the three tables `server.js` queries.  `active_until` is `NULL`
until the first successful payment; timestamps and durations are integer
second counts. -/

structure Plan where
  id : Nat
  price : Int
  duration : Int
  profile_name : Option String
  rate_limit : Option String
  active : Bool
deriving DecidableEq

structure Tx where
  id : Nat
  phone_number : String
  amount : Int
  status : String
  mpesa_request_id : Option String
  mpesa_receipt : Option String
deriving DecidableEq

structure User where
  username : String
  password : String
  phone_number : String
  active_until : Option Int
deriving DecidableEq

structure DB where
  plans : List Plan
  txs : List Tx
  users : List User
deriving DecidableEq

/-- A JSON scalar in the M-Pesa callback metadata: the gateway reports
`Amount` and `PhoneNumber` as numbers and `MpesaReceiptNumber` as a
string, but the handler never assumes which. -/
inductive JVal
  | num (n : Int)
  | str (s : String)
deriving DecidableEq

/-- JavaScript truthiness of a metadata value: `0` and `""` are falsy. -/
def JVal.truthy : JVal → Bool
  | .num n => n ≠ 0
  | .str s => s ≠ ""

/-- How node-postgres renders the value as a query parameter. -/
def JVal.asParam : JVal → String
  | .num n => toString n
  | .str s => s

/-! ### `/callback` building blocks (`server.js` lines 246-301) -/

/-- `metadata.Item.find(i => i.Name === name)?.Value`. -/
def findItem (items : List (String × JVal)) (name : String) : Option JVal :=
  (items.find? (fun i => i.1 = name)).map (·.2)

/-- `const paidPhone = phoneItem?.Value || phone;` — the gateway-reported
`PhoneNumber` when the item exists and its value is truthy, else the
transaction's stored phone number. -/
def derivePaidPhone (items : List (String × JVal)) (txPhone : String) : String :=
  match findItem items "PhoneNumber" with
  | some v => if v.truthy then v.asParam else txPhone
  | none => txPhone

/-- The comparison `price = $1` where `$1` is the webhook-reported
`Amount` value: an absent value is a `NULL` parameter and matches no
row; a string parameter is cast to integer by the database. -/
def amountMatches (price : Int) : Option JVal → Bool
  | some (.num n) => price = n
  | some (.str s) => (String.toInt? s).any (fun n => price = n)
  | none => false

/-- `SELECT profile_name FROM plans WHERE price=$1 AND active=true
ORDER BY id LIMIT 1` — the active plan of matching price with the
smallest id. -/
def resolvePlan (plans : List Plan) (amount : Option JVal) : Option Plan :=
  (plans.filter (fun p => amountMatches p.price amount && p.active)).foldl
    (fun acc p =>
      match acc with
      | none => some p
      | some q => if p.id < q.id then some p else some q) none

/-- `(SELECT duration FROM plans WHERE price=$1 LIMIT 1)` — no `active`
filter and no `ORDER BY`; modelled as the first row in table order. -/
def durationSubquery (plans : List Plan) (amount : Option JVal) : Option Int :=
  (plans.find? (fun p => amountMatches p.price amount)).map (·.duration)

/-- `UPDATE transactions SET status='success', mpesa_receipt=$2 WHERE id=$3`. -/
def setTxSuccess (txs : List Tx) (txId : Nat) (receipt : Option String) : List Tx :=
  txs.map (fun t =>
    if t.id = txId then { t with status := "success", mpesa_receipt := receipt } else t)

/-- `UPDATE transactions SET status='failed' WHERE id=$2`. -/
def setTxFailed (txs : List Tx) (txId : Nat) : List Tx :=
  txs.map (fun t => if t.id = txId then { t with status := "failed" } else t)

/-- `INSERT INTO users (username, password, phone_number) VALUES
($1,$2,$3)` guarded by the preceding `SELECT id FROM users WHERE
phone_number=$1` emptiness check; `active_until` defaults to `NULL`. -/
def upsertUser (users : List User) (phone : String) : List User :=
  if users.any (fun u => u.phone_number = phone) then users
  else users ++ [{ username := phone, password := phone, phone_number := phone,
                   active_until := none }]

/-- The `CASE` expression of the `active_until` update: reset to
`NOW() + duration` when `active_until` is `NULL` or in the past, else
add the duration to the existing value. -/
def stackActiveUntil (old : Option Int) (now d : Int) : Int :=
  match old with
  | none => now + d
  | some t => if t < now then now + d else t + d

/-- `UPDATE users SET active_until = CASE ... END WHERE phone_number = $2`
with the duration taken from `durationSubquery`; an empty subquery makes
the whole `CASE` expression `NULL`. -/
def applyActiveUpdate (users : List User) (phone : String) (now : Int)
    (dur : Option Int) : List User :=
  users.map (fun u =>
    if u.phone_number = phone then
      { u with active_until := dur.map (fun d => stackActiveUntil u.active_until now d) }
    else u)

/-! ### Entitlement provisioner (`createHotspotUser`, lines 163-175) -/

/-- A RouterOS command: path and argument words. -/
abbrev RouterCmd := String × List String

/-- Outcomes of the controller interactions a provisioning call makes:
whether `connectMikrotik` resolves, whether the `remove` write resolves,
whether the `add` write resolves. -/
structure RouterBehavior where
  connectOk : Bool
  removeOk : Bool
  addOk : Bool
deriving DecidableEq

/-- `createHotspotUser(phone, profileName)`: connect, issue an
unconditional `remove` whose failure is swallowed by the empty `catch`,
then issue `add` with `name=phone`, `password=phone` and, when
`profileName` is truthy, `profile=profileName`; a failed connect or a
failed `add` is rethrown.  Returns the trace of issued commands and the
outcome. -/
def createHotspotUser (phone : String) (profileName : Option String)
    (b : RouterBehavior) : List RouterCmd × Except String Unit :=
  if !b.connectOk then ([], .error "connect")
  else
    let addCmd : RouterCmd :=
      ("/ip/hotspot/user/add",
        ["=name=" ++ phone, "=password=" ++ phone] ++
          (match profileName with
           | some s => if s = "" then [] else ["=profile=" ++ s]
           | none => []))
    let cmds : List RouterCmd :=
      [("/ip/hotspot/user/remove", ["?name=" ++ phone]), addCmd]
    if b.addOk then (cmds, .ok ()) else (cmds, .error "add")

/-! ### The `/callback` handler (`server.js` lines 246-301) -/

/-- The HTTP response of the webhook handler. -/
inductive Resp
  | okMsg (msg : String)
  | badRequest (msg : String)
  | serverError
deriving DecidableEq

/-- The parsed `Body.stkCallback` envelope.  `metadata` is `none` when
`CallbackMetadata` is absent from the payload. -/
structure StkCallback where
  checkoutId : Option String
  resultCode : Option Int
  metadata : Option (List (String × JVal))
deriving DecidableEq

structure CallbackOutcome where
  db : DB
  resp : Resp
  routerCmds : List RouterCmd
deriving DecidableEq

/-- The `/callback` handler as a state transition on the database, also
returning the HTTP response and the trace of controller commands.
`now` is the single evaluation of `NOW()`.  Control flow follows the
source: falsy `CheckoutRequestID` → 400; unknown correlation id → 200
"Transaction not found"; `ResultCode === 0` → success path (a missing
`CallbackMetadata` makes `metadata.Item` throw before any row is
touched, caught as a 500); anything else → mark the transaction
`failed`.  A `createHotspotUser` failure is caught and only logged. -/
def callbackHandler (db : DB) (cb : StkCallback) (now : Int)
    (router : RouterBehavior) : CallbackOutcome :=
  match cb.checkoutId with
  | none => ⟨db, .badRequest "Invalid callback", []⟩
  | some cid =>
    if cid = "" then ⟨db, .badRequest "Invalid callback", []⟩
    else
      match db.txs.find? (fun t => t.mpesa_request_id = some cid) with
      | none => ⟨db, .okMsg "Transaction not found", []⟩
      | some tx =>
        if cb.resultCode = some 0 then
          match cb.metadata with
          | none => ⟨db, .serverError, []⟩
          | some items =>
            let amount := findItem items "Amount"
            let receipt := (findItem items "MpesaReceiptNumber").map JVal.asParam
            let paidPhone := derivePaidPhone items tx.phone_number
            let txs1 := setTxSuccess db.txs tx.id receipt
            match resolvePlan db.plans amount with
            | none => ⟨{ db with txs := txs1 }, .okMsg "Callback processed", []⟩
            | some plan =>
              let users1 := upsertUser db.users paidPhone
              let users2 := applyActiveUpdate users1 paidPhone now
                (durationSubquery db.plans amount)
              let cmds := (createHotspotUser paidPhone plan.profile_name router).1
              ⟨{ db with txs := txs1, users := users2 },
                .okMsg "Callback processed", cmds⟩
        else
          ⟨{ db with txs := setTxFailed db.txs tx.id }, .okMsg "Callback processed", []⟩

/-! ### The `/pay` validation stage (`server.js` lines 200-210) -/

/-- `/^254\d{9}$/.test(s)`. -/
def phoneRegexTest (s : String) : Bool :=
  match s.data with
  | '2' :: '5' :: '4' :: rest => rest.length = 9 && rest.all isDigitChar
  | _ => false

/-- Where the `/pay` handler goes after its validation stage: an early
400 rejection (before any database write), or the `INSERT INTO
transactions` with the request phone and the plan's price. -/
inductive PayStep
  | reject (error : String)
  | insertTx (phone : String) (amount : Int)
deriving DecidableEq

/-- The `/pay` handler up to the transaction insert: a missing or empty
phone is falsy, a non-matching phone fails the regex test, both return
400 `{success:false, error:"Invalid phone number"}` before any query
runs; an unknown or inactive plan returns 400 `{success:false,
error:"Invalid plan"}`; otherwise the pending transaction row is
inserted.  `planLookup` abstracts `SELECT ... FROM plans WHERE id=$1 AND
active=true`. -/
def payHandler (phone : Option String) (planLookup : Option Plan) : PayStep :=
  match phone with
  | none => .reject "Invalid phone number"
  | some p =>
    if p = "" || !phoneRegexTest p then .reject "Invalid phone number"
    else
      match planLookup with
      | none => .reject "Invalid plan"
      | some plan => .insertTx p plan.price

/-! ### The controller session manager (`connectMikrotik`, lines 62-92) -/

/-- The module-level `mikrotikApi` / `mikrotikConn` pair; handles are
abstract identifiers. -/
structure MikState where
  api : Option Nat
  conn : Option Nat
deriving DecidableEq

/-- `connectMikrotik()`: when a connection is held it is returned
unchanged; otherwise a fresh `RouterOSAPI` is constructed and
`connect()` awaited — on success both module variables hold the fresh
handles, on failure (including timeout) the `catch` closes and nulls
both and rethrows. -/
def connectMikrotik (st : MikState) (freshApi freshConn : Nat)
    (connectOk : Bool) : MikState × Except Unit (Option Nat × Option Nat) :=
  match st.conn with
  | some c => (st, .ok (st.api, some c))
  | none =>
    if connectOk then
      (⟨some freshApi, some freshConn⟩, .ok (some freshApi, some freshConn))
    else
      (⟨none, none⟩, .error ())

/-! ### Sanity checks on the normalizer -/

example : formatDurationForRouterOS "1 day 02:00:00" = some "1d2h0m" := by decide
example : formatDurationForRouterOS "00:30:00" = some "0h30m" := by decide
example : formatDurationForRouterOS "" = none := by decide
example : formatDurationForRouterOS "garbage" = none := by decide
example : formatDurationForRouterOS "1d2h0m" = none := by decide
example : formatDurationForRouterOS "2 hours" = some "2h" := by decide
example : formatDurationForRouterOS "45 mins" = some "45m" := by decide

/-! ### Token-alphabet lemmas

Every token emitted by the normalizer passes the `/^[0-9dhms]+$/` guard;
strings over that alphabet contain no whitespace, no uppercase letters,
no colon, and none of the letters `a`, `o`, `i` that the words `day`,
`hour`, `min` require, so none of the four regexes can match inside a
previously produced token. -/

theorem tokenChar_cases {c : Char} (h : isTokenChar c = true) :
    c ∈ digitChars ∨ c = 'd' ∨ c = 'h' ∨ c = 'm' ∨ c = 's' := by
  simp only [isTokenChar, isDigitChar, Bool.or_eq_true, decide_eq_true_eq,
    beq_iff_eq] at h
  tauto

theorem tokenChar_not_space {c : Char} (h : isTokenChar c = true) :
    isJsSpace c = false := by
  rcases tokenChar_cases h with hc | rfl | rfl | rfl | rfl
  · fin_cases hc <;> decide
  all_goals decide

theorem tokenChar_lower {c : Char} (h : isTokenChar c = true) :
    jsToLowerChar c = c := by
  rcases tokenChar_cases h with hc | rfl | rfl | rfl | rfl
  · fin_cases hc <;> decide
  all_goals decide

theorem tokenChar_ne_colon {c : Char} (h : isTokenChar c = true) : c ≠ ':' := by
  rcases tokenChar_cases h with hc | rfl | rfl | rfl | rfl
  · fin_cases hc <;> decide
  all_goals decide

theorem tokenChar_ne_aoi {c : Char} (h : isTokenChar c = true) :
    c ≠ 'a' ∧ c ≠ 'o' ∧ c ≠ 'i' := by
  rcases tokenChar_cases h with hc | rfl | rfl | rfl | rfl
  · fin_cases hc <;> decide
  all_goals decide

theorem mem_of_mem_dropWhile {α : Type} {p : α → Bool} :
    ∀ {l : List α} {a : α}, a ∈ l.dropWhile p → a ∈ l := by
  intro l
  induction l with
  | nil => intro a ha; simp at ha
  | cons c cs ih =>
    intro a ha
    rw [List.dropWhile_cons] at ha
    split at ha
    · exact List.mem_cons_of_mem _ (ih ha)
    · exact ha

theorem dropWhile_space_of_token {l : List Char}
    (h : ∀ c ∈ l, isTokenChar c = true) : l.dropWhile isJsSpace = l := by
  cases l with
  | nil => rfl
  | cons c cs =>
    rw [List.dropWhile_cons, tokenChar_not_space (h c (List.mem_cons_self c cs))]
    simp

theorem jsTrim_of_token {l : List Char}
    (h : ∀ c ∈ l, isTokenChar c = true) : jsTrim l = l := by
  unfold jsTrim
  rw [dropWhile_space_of_token h,
    dropWhile_space_of_token (fun c hc => h c (List.mem_reverse.mp hc)),
    List.reverse_reverse]

theorem map_lower_of_token {l : List Char}
    (h : ∀ c ∈ l, isTokenChar c = true) : l.map jsToLowerChar = l := by
  induction l with
  | nil => rfl
  | cons c cs ih =>
    rw [List.map_cons, tokenChar_lower (h c (List.mem_cons_self c cs)),
      ih (fun c hc => h c (List.mem_cons_of_mem _ hc))]

theorem matchLit_second_not_token {l : List Char}
    (h : ∀ c ∈ l, isTokenChar c = true) (c₁ x : Char) (lit : List Char)
    (hx : isTokenChar x = false) : matchLit (c₁ :: x :: lit) l = none := by
  cases l with
  | nil => rfl
  | cons c cs =>
    show (if c = c₁ then matchLit (x :: lit) cs else none) = none
    by_cases hc : c = c₁
    · rw [if_pos hc]
      cases cs with
      | nil => rfl
      | cons c' cs' =>
        show (if c' = x then matchLit lit cs' else none) = none
        have hne : c' ≠ x := by
          intro he
          rw [← he] at hx
          rw [h c' (List.mem_cons_of_mem _ (List.mem_cons_self c' cs'))] at hx
          exact absurd hx (by decide)
        rw [if_neg hne]
    · rw [if_neg hc]

theorem tryNumLitAt_second_not_token {s : List Char}
    (hs : ∀ c ∈ s, isTokenChar c = true) (c₁ x : Char) (lit : List Char)
    (hx : isTokenChar x = false) : tryNumLitAt (c₁ :: x :: lit) s = none := by
  unfold tryNumLitAt
  by_cases hds : (s.takeWhile isDigitChar).isEmpty
  · simp [hds]
  · have hrest : ∀ c ∈ s.dropWhile isDigitChar, isTokenChar c = true :=
      fun c hc => hs c (mem_of_mem_dropWhile hc)
    simp only [hds, dropWhile_space_of_token hrest,
      matchLit_second_not_token hrest c₁ x lit hx]
    simp

theorem findNumLit_second_not_token (c₁ x : Char) (lit : List Char)
    (hx : isTokenChar x = false) :
    ∀ s : List Char, (∀ c ∈ s, isTokenChar c = true) →
      findNumLit (c₁ :: x :: lit) s = none := by
  intro s
  induction s with
  | nil => intro _; rfl
  | cons c cs ih =>
    intro hs
    show (match tryNumLitAt (c₁ :: x :: lit) (c :: cs) with
      | some n => some n
      | none => findNumLit (c₁ :: x :: lit) cs) = none
    rw [tryNumLitAt_second_not_token hs c₁ x lit hx]
    exact ih (fun c hc => hs c (List.mem_cons_of_mem _ hc))

theorem takeExactDigits_rest_mem :
    ∀ (n : Nat) (l ds rest : List Char), takeExactDigits n l = some (ds, rest) →
      ∀ c ∈ rest, c ∈ l := by
  intro n
  induction n with
  | zero =>
    intro l ds rest h c hc
    simp only [takeExactDigits, Option.some.injEq, Prod.mk.injEq] at h
    rw [h.2]
    exact hc
  | succ n ih =>
    intro l ds rest h c hc
    cases l with
    | nil => exact absurd h (by simp [takeExactDigits])
    | cons a as =>
      simp only [takeExactDigits] at h
      by_cases ha : isDigitChar a
      · rw [if_pos ha] at h
        cases hrec : takeExactDigits n as with
        | none => rw [hrec] at h; exact absurd h (by simp)
        | some pr =>
          obtain ⟨ds', rest'⟩ := pr
          rw [hrec] at h
          simp only [Option.some.injEq, Prod.mk.injEq] at h
          have : c ∈ as := ih as ds' rest' hrec c (by rw [h.2]; exact hc)
          exact List.mem_cons_of_mem _ this
      · rw [if_neg ha] at h
        exact absurd h (by simp)

theorem tryTimeWith_token (k : Nat) {s : List Char}
    (hs : ∀ c ∈ s, isTokenChar c = true) : tryTimeWith k s = none := by
  unfold tryTimeWith
  cases h : takeExactDigits k s with
  | none => rfl
  | some pr =>
    obtain ⟨ds, rest⟩ := pr
    have hrest : ∀ c ∈ rest, isTokenChar c = true :=
      fun c hc => hs c (takeExactDigits_rest_mem k s ds rest h c hc)
    cases rest with
    | nil => rfl
    | cons c cs =>
      have : c ≠ ':' := tokenChar_ne_colon (hrest c (List.mem_cons_self c cs))
      simp [this]

theorem findTime_token :
    ∀ s : List Char, (∀ c ∈ s, isTokenChar c = true) → findTime s = none := by
  intro s
  induction s with
  | nil => intro _; rfl
  | cons c cs ih =>
    intro hs
    show (match tryTimeAt (c :: cs) with
      | some r => some r
      | none => findTime cs) = none
    have hat : tryTimeAt (c :: cs) = none := by
      unfold tryTimeAt
      rw [tryTimeWith_token 2 hs, tryTimeWith_token 1 hs]
    rw [hat]
    exact ih (fun c hc => hs c (List.mem_cons_of_mem _ hc))

theorem rawOut_token {s : List Char}
    (hs : ∀ c ∈ s, isTokenChar c = true) : rawOut s = [] := by
  unfold rawOut
  rw [findNumLit_second_not_token 'd' 'a' ['y'] (by decide) s hs,
    findTime_token s hs,
    findNumLit_second_not_token 'h' 'o' ['u', 'r'] (by decide) s hs,
    findNumLit_second_not_token 'm' 'i' ['n'] (by decide) s hs]
  simp

/-! ### Claim C3 — duration normalizer test vectors -/

/-- C3 (counterexample): the spec's first two test vectors fail on the
code — `formatDurationForRouterOS` returns `"1d2h0m"` (not `"1d2h"`) for
`"1 day 02:00:00"` because the `HH:MM:SS` match always appends its
minutes capture, and `"0h30m"` (not `"30m"`) for `"00:30:00"` because
the hours capture is emitted even when zero. -/
theorem C3_spec_vectors_refuted :
    formatDurationForRouterOS "1 day 02:00:00" ≠ some "1d2h"
    ∧ formatDurationForRouterOS "00:30:00" ≠ some "30m" := by
  decide

/-- C3 (amended): the normalizer's actual vectors —
`normalize("1 day 02:00:00") = "1d2h0m"`, `normalize("00:30:00") =
"0h30m"` (the `HH:MM:SS` match always contributes both an `h` and an `m`
segment, zero or not), `normalize("") = none`, and
`normalize("garbage") = none`. -/
theorem C3_normalizer_vectors :
    formatDurationForRouterOS "1 day 02:00:00" = some "1d2h0m"
    ∧ formatDurationForRouterOS "00:30:00" = some "0h30m"
    ∧ formatDurationForRouterOS "" = none
    ∧ formatDurationForRouterOS "garbage" = none := by
  decide

/-! ### Claim C5 — the normalizer is not idempotent -/

/-- C5 (counterexample): the normalizer is not idempotent — the input
`"1 day 02:00:00"` produces the token `"1d2h0m"`, but applying the
normalizer to that token does not return it unchanged (it returns no
value, since a compact token contains neither the words `day`, `hour`,
`min` nor a colon). -/
theorem C5_not_idempotent :
    formatDurationForRouterOS "1 day 02:00:00" = some "1d2h0m"
    ∧ formatDurationForRouterOS "1d2h0m" ≠ some "1d2h0m" := by
  decide

/-- C5 (amended): every token the normalizer produces is a non-empty
string over the `[0-9dhms]` alphabet, and applying the normalizer to any
produced token yields no value — none of the four regex searches can
match inside such a token, so the normalizer is not idempotent on its
image. -/
theorem C5_normalizer_maps_tokens_to_none (raw t : String)
    (h : formatDurationForRouterOS raw = some t) :
    formatDurationForRouterOS t = none
    ∧ t.data.all isTokenChar = true
    ∧ t ≠ "" := by
  unfold formatDurationForRouterOS at h
  by_cases hraw : raw = ""
  · rw [if_pos hraw] at h
    exact absurd h (by simp)
  · rw [if_neg hraw] at h
    unfold gateToken at h
    by_cases hcond : rawOut ((jsTrim raw.data).map jsToLowerChar) ≠ []
        ∧ (rawOut ((jsTrim raw.data).map jsToLowerChar)).all isTokenChar
    · rw [if_pos hcond] at h
      have ht : String.mk (rawOut ((jsTrim raw.data).map jsToLowerChar)) = t :=
        Option.some.inj h
      have hdata : t.data = rawOut ((jsTrim raw.data).map jsToLowerChar) := by
        rw [← ht]
      have hmem : ∀ c ∈ rawOut ((jsTrim raw.data).map jsToLowerChar),
          isTokenChar c = true := List.all_eq_true.mp hcond.2
      have hmem' : ∀ c ∈ t.data, isTokenChar c = true := by
        rw [hdata]; exact hmem
      refine ⟨?_, ?_, ?_⟩
      · unfold formatDurationForRouterOS
        by_cases ht0 : t = ""
        · rw [if_pos ht0]
        · rw [if_neg ht0]
          rw [jsTrim_of_token hmem', map_lower_of_token hmem',
            rawOut_token hmem']
          rfl
      · rw [hdata]; exact hcond.2
      · intro h0
        apply hcond.1
        rw [← hdata, h0]
    · rw [if_neg hcond] at h
      exact absurd h (by simp)

/-- C5 (witness): instantiating the amended theorem at the concrete
input `"1 day 02:00:00"`, whose produced token is `"1d2h0m"`. -/
theorem C5_normalizer_maps_tokens_to_none_witness :
    formatDurationForRouterOS "1d2h0m" = none
    ∧ ("1d2h0m" : String).data.all isTokenChar = true
    ∧ ("1d2h0m" : String) ≠ "" :=
  C5_normalizer_maps_tokens_to_none "1 day 02:00:00" "1d2h0m" (by decide)

/-! ### Claim C4 — the plan extending `active_until` vs the resolved plan -/

/-- C4 (code bug): the plan lookup of step 3 filters on `active=true`
and orders by id, but the duration subquery of the `active_until` update
does neither.  At the failing input — an inactive plan id 1 priced 50
with duration 1800 s listed before an active plan id 2 priced 50 with
duration 3600 s, and a success webhook reporting amount 50 — step 3
resolves plan 2, while the subquery hands back plan 1's 1800 s, so the
duration added is not the resolved plan's. -/
theorem C4_duration_subquery_divergence :
    resolvePlan
        [⟨1, 50, 1800, some "halfhour", none, false⟩,
         ⟨2, 50, 3600, some "1hr", none, true⟩] (some (JVal.num 50))
      = some ⟨2, 50, 3600, some "1hr", none, true⟩
    ∧ durationSubquery
        [⟨1, 50, 1800, some "halfhour", none, false⟩,
         ⟨2, 50, 3600, some "1hr", none, true⟩] (some (JVal.num 50))
      = some 1800
    ∧ (1800 : Int) ≠ 3600 := by
  decide

/-! ### Claim C2 — `active_until` stacking rule -/

/-- C2: on a success webhook that resolves a plan, the handler applies
the stacking update to the user rows of the paid phone; the `CASE` rule
sets `NOW() + duration` when `active_until` is `NULL` or earlier than
now, otherwise adds the duration to the existing value, and for a
positive duration the result is always strictly later than both the old
value and now — `active_until` only moves forward. -/
theorem C2_active_until_stacking (db : DB) (cb : StkCallback) (now : Int)
    (router : RouterBehavior) (cid : String) (tx : Tx)
    (items : List (String × JVal)) (plan : Plan) (d u : Int)
    (h1 : cb.checkoutId = some cid) (h2 : ¬ cid = "")
    (h3 : db.txs.find? (fun t => t.mpesa_request_id = some cid) = some tx)
    (h4 : cb.resultCode = some 0) (h5 : cb.metadata = some items)
    (h6 : resolvePlan db.plans (findItem items "Amount") = some plan)
    (h7 : durationSubquery db.plans (findItem items "Amount") = some d)
    (h8 : 0 < d) :
    (callbackHandler db cb now router).db.users =
      applyActiveUpdate
        (upsertUser db.users (derivePaidPhone items tx.phone_number))
        (derivePaidPhone items tx.phone_number) now (some d)
    ∧ stackActiveUntil none now d = now + d
    ∧ (u < now → stackActiveUntil (some u) now d = now + d)
    ∧ (¬ u < now → stackActiveUntil (some u) now d = u + d)
    ∧ u < stackActiveUntil (some u) now d
    ∧ now < stackActiveUntil none now d := by
  refine ⟨?_, rfl,
    fun hu => by simp only [stackActiveUntil, if_pos hu],
    fun hu => by simp only [stackActiveUntil, if_neg hu], ?_, ?_⟩
  · simp [callbackHandler, h1, h2, h3, h4, h5, h6, h7]
  · by_cases hu : u < now
    · simp only [stackActiveUntil, if_pos hu]; omega
    · simp only [stackActiveUntil, if_neg hu]; omega
  · simp only [stackActiveUntil]; omega

/-- C2 (witness): the spec's own example — `active_until` ten minutes in
the future (600 s past `now = 0`) and a one-hour plan: after the webhook
the user's window is 600 + 3600 = 4200 s, not reset to 3600 s. -/
theorem C2_active_until_stacking_witness :
    (callbackHandler
        ⟨[⟨1, 50, 3600, some "1hr", none, true⟩],
         [⟨7, "254712345678", 50, "pending", some "ws_CO_1", none⟩],
         [⟨"254712345678", "254712345678", "254712345678", some 600⟩]⟩
        ⟨some "ws_CO_1", some 0,
          some [("Amount", JVal.num 50), ("MpesaReceiptNumber", JVal.str "QAB1"),
                ("PhoneNumber", JVal.num 254712345678)]⟩
        0 ⟨true, true, true⟩).db.users =
      [⟨"254712345678", "254712345678", "254712345678", some 4200⟩]
    ∧ stackActiveUntil (some 600) 0 3600 = 600 + 3600 := by
  have h := C2_active_until_stacking
    ⟨[⟨1, 50, 3600, some "1hr", none, true⟩],
     [⟨7, "254712345678", 50, "pending", some "ws_CO_1", none⟩],
     [⟨"254712345678", "254712345678", "254712345678", some 600⟩]⟩
    ⟨some "ws_CO_1", some 0,
      some [("Amount", JVal.num 50), ("MpesaReceiptNumber", JVal.str "QAB1"),
            ("PhoneNumber", JVal.num 254712345678)]⟩
    0 ⟨true, true, true⟩ "ws_CO_1"
    ⟨7, "254712345678", 50, "pending", some "ws_CO_1", none⟩
    [("Amount", JVal.num 50), ("MpesaReceiptNumber", JVal.str "QAB1"),
     ("PhoneNumber", JVal.num 254712345678)]
    ⟨1, 50, 3600, some "1hr", none, true⟩ 3600 600
    rfl (by decide) (by decide) rfl rfl (by decide) (by decide) (by decide)
  refine ⟨?_, h.2.2.2.1 (by decide)⟩
  rw [h.1]
  decide

/-! ### Claim C6 — entitlement provisioner -/

/-- C6: `createHotspotUser` first issues the removal of any subscriber
named exactly `phone` (its failure is swallowed — the behavior below is
stated for an arbitrary `removeOk`), then issues the create with
`name=phone`, `password=phone` and `profile=profileName` when a truthy
profile name is provided; the call succeeds exactly when the create
succeeds, so a create failure propagates while a remove failure does
not. -/
theorem C6_provisioner_remove_swallowed_add_propagates
    (phone : String) (pn : Option String) (b : RouterBehavior)
    (h : b.connectOk = true) :
    (createHotspotUser phone pn b).1 =
      [("/ip/hotspot/user/remove", ["?name=" ++ phone]),
       ("/ip/hotspot/user/add",
         ["=name=" ++ phone, "=password=" ++ phone] ++
           (match pn with
            | some s => if s = "" then [] else ["=profile=" ++ s]
            | none => []))]
    ∧ ((createHotspotUser phone pn b).2 = Except.ok () ↔ b.addOk = true) := by
  unfold createHotspotUser
  rw [h]
  cases hb : b.addOk <;> simp

/-- C6 (witness): a provisioning call whose removal step fails
(`removeOk = false`) still issues remove-then-add and succeeds. -/
theorem C6_provisioner_witness :
    (createHotspotUser "254712345678" (some "1hr") ⟨true, false, true⟩).1 =
      [("/ip/hotspot/user/remove", ["?name=" ++ "254712345678"]),
       ("/ip/hotspot/user/add",
         ["=name=" ++ "254712345678", "=password=" ++ "254712345678"] ++
           (match (some "1hr" : Option String) with
            | some s => if s = "" then [] else ["=profile=" ++ s]
            | none => []))]
    ∧ ((createHotspotUser "254712345678" (some "1hr") ⟨true, false, true⟩).2
        = Except.ok ()
       ↔ (⟨true, false, true⟩ : RouterBehavior).addOk = true) :=
  C6_provisioner_remove_swallowed_add_propagates "254712345678" (some "1hr")
    ⟨true, false, true⟩ rfl

/-! ### Claim C7 — `/pay` phone validation -/

/-- C7: the `/pay` handler rejects every request whose phone is absent
or fails `/^254\d{9}$/` with the 400 "Invalid phone number" response,
before any transaction row is inserted (`PayStep.reject` precedes the
insert in the model); `"254712345678"` passes the test and is never
rejected for its phone, while `"0712345678"` fails the test. -/
theorem C7_pay_phone_validation (phone : Option String) (pl : Option Plan) :
    ((∀ p, phone = some p → phoneRegexTest p = false) →
      payHandler phone pl = .reject "Invalid phone number")
    ∧ phoneRegexTest "254712345678" = true
    ∧ phoneRegexTest "0712345678" = false
    ∧ payHandler (some "254712345678") pl ≠ PayStep.reject "Invalid phone number" := by
  refine ⟨?_, by decide, by decide, ?_⟩
  · intro h
    cases phone with
    | none => rfl
    | some p => simp [payHandler, h p rfl]
  · have hcond : (decide (("254712345678" : String) = "")
        || !phoneRegexTest "254712345678") = false := by decide
    cases pl with
    | none => simp [payHandler, hcond]; decide
    | some plan => simp [payHandler, hcond]; decide

/-- C7 (witness): the spec's rejected example `"0712345678"` yields the
400 "Invalid phone number" rejection. -/
theorem C7_pay_phone_validation_witness :
    payHandler (some "0712345678") none = PayStep.reject "Invalid phone number" :=
  (C7_pay_phone_validation (some "0712345678") none).1
    (by intro p hp; injection hp with h; rw [← h]; decide)

/-! ### Claim C9 — controller session manager -/

/-- C9: `connectMikrotik` returns the held session unchanged whenever
one exists (no new connection regardless of how an attempt would fare);
with no held session a failed or timed-out attempt leaves both module
variables cleared and propagates the error; and from the cleared state a
subsequent successful call establishes a fresh connection. -/
theorem C9_session_manager (st : MikState) (a b c : Nat) (ok : Bool) :
    (st.conn = some c → connectMikrotik st a b ok = (st, .ok (st.api, some c)))
    ∧ (st.conn = none → connectMikrotik st a b false = (⟨none, none⟩, .error ()))
    ∧ connectMikrotik ⟨none, none⟩ a b true = (⟨some a, some b⟩, .ok (some a, some b)) := by
  refine ⟨?_, ?_, rfl⟩
  · intro h; simp [connectMikrotik, h]
  · intro h; simp [connectMikrotik, h]

/-- C9 (witness): a held session `(api 1, conn 2)` is returned unchanged
even when a connection attempt would fail, and a failed attempt from a
session-less state clears both handles. -/
theorem C9_session_manager_witness :
    connectMikrotik ⟨some 1, some 2⟩ 3 4 false
      = (⟨some 1, some 2⟩, .ok (some 1, some 2))
    ∧ connectMikrotik ⟨some 9, none⟩ 3 4 false = (⟨none, none⟩, .error ()) :=
  ⟨(C9_session_manager ⟨some 1, some 2⟩ 3 4 2 false).1 rfl,
   (C9_session_manager ⟨some 9, none⟩ 3 4 0 false).2.1 rfl⟩

/-! ### Claim C10 — paid-phone derivation in the success path -/

/-- C10 (counterexample): a callback whose `PhoneNumber` item is present
but carries the falsy value `0` still falls back to the transaction's
stored phone, refuting "falling back only when absent". -/
theorem C10_falsy_phone_item_falls_back :
    findItem [("PhoneNumber", JVal.num 0)] "PhoneNumber" = some (JVal.num 0)
    ∧ derivePaidPhone [("PhoneNumber", JVal.num 0)] "254712345678" = "254712345678"
    ∧ (JVal.num 0).asParam ≠ "254712345678" := by
  decide

/-- C10 (amended): the phone used for the upsert, the `active_until`
extension and the provisioning is the gateway-reported `PhoneNumber`
when the item is present with a truthy value; the fallback to the
transaction's stored phone fires when the item is absent or its value is
falsy.  The final conjunct runs the full handler on a callback whose
gateway phone differs from the initiating phone: the user row is created
for the gateway-reported number. -/
theorem C10_paid_phone_derivation (items : List (String × JVal)) (txPhone : String) :
    (∀ v, findItem items "PhoneNumber" = some v → v.truthy = true →
      derivePaidPhone items txPhone = v.asParam)
    ∧ (∀ v, findItem items "PhoneNumber" = some v → v.truthy = false →
      derivePaidPhone items txPhone = txPhone)
    ∧ (findItem items "PhoneNumber" = none → derivePaidPhone items txPhone = txPhone)
    ∧ (callbackHandler
        ⟨[⟨1, 50, 3600, some "1hr", none, true⟩],
         [⟨7, "254712345678", 50, "pending", some "ws_CO_2", none⟩], []⟩
        ⟨some "ws_CO_2", some 0,
          some [("Amount", JVal.num 50), ("PhoneNumber", JVal.num 254799999999)]⟩
        0 ⟨true, true, true⟩).db.users.map User.phone_number = ["254799999999"] := by
  refine ⟨?_, ?_, ?_, by decide⟩
  · intro v hv htr; simp [derivePaidPhone, hv, htr]
  · intro v hv htr; simp [derivePaidPhone, hv, htr]
  · intro h; simp [derivePaidPhone, h]

/-- C10 (witness): a present, truthy gateway phone is the one used. -/
theorem C10_paid_phone_derivation_witness :
    derivePaidPhone [("PhoneNumber", JVal.num 254799999999)] "254712345678"
      = (JVal.num 254799999999).asParam :=
  (C10_paid_phone_derivation [("PhoneNumber", JVal.num 254799999999)]
    "254712345678").1 (JVal.num 254799999999) (by decide) (by decide)

/-! ### Claim C8 — failure webhook frame condition -/

/-- C8: a webhook whose result code is non-zero and whose correlation id
matches a transaction marks exactly that transaction `failed` and does
nothing else: users and plans are untouched, no controller command is
issued, and the handler responds 200. -/
theorem C8_failure_webhook_frame (db : DB) (cb : StkCallback) (now : Int)
    (router : RouterBehavior) (cid : String) (tx : Tx) (r : Int)
    (h1 : cb.checkoutId = some cid) (h2 : ¬ cid = "")
    (h3 : db.txs.find? (fun t => t.mpesa_request_id = some cid) = some tx)
    (h4 : cb.resultCode = some r) (h5 : r ≠ 0) :
    callbackHandler db cb now router =
      ⟨{ db with txs := setTxFailed db.txs tx.id }, .okMsg "Callback processed", []⟩
    ∧ (callbackHandler db cb now router).db.users = db.users
    ∧ (callbackHandler db cb now router).db.plans = db.plans
    ∧ (callbackHandler db cb now router).routerCmds = [] := by
  have hmain : callbackHandler db cb now router =
      ⟨{ db with txs := setTxFailed db.txs tx.id }, .okMsg "Callback processed", []⟩ := by
    simp [callbackHandler, h1, h2, h3, h4, h5]
  exact ⟨hmain, by rw [hmain], by rw [hmain], by rw [hmain]⟩

/-- C8 (witness): a concrete failure webhook marks the pending
transaction `failed` and leaves everything else untouched. -/
theorem C8_failure_webhook_frame_witness :
    callbackHandler ⟨[], [⟨7, "254712345678", 50, "pending", some "ws_CO_3", none⟩], []⟩
        ⟨some "ws_CO_3", some 1, none⟩ 0 ⟨true, true, true⟩ =
      ⟨⟨[], setTxFailed [⟨7, "254712345678", 50, "pending", some "ws_CO_3", none⟩] 7, []⟩,
        .okMsg "Callback processed", []⟩ :=
  (C8_failure_webhook_frame
    ⟨[], [⟨7, "254712345678", 50, "pending", some "ws_CO_3", none⟩], []⟩
    ⟨some "ws_CO_3", some 1, none⟩ 0 ⟨true, true, true⟩ "ws_CO_3"
    ⟨7, "254712345678", 50, "pending", some "ws_CO_3", none⟩ 1
    rfl (by decide) (by decide) rfl (by decide)).1

/-! ### Claim C1 — transaction status terminality -/

/-- C1 (counterexample): the handler does not guard terminal states — a
transaction already `success` receives a later failure webhook for the
same correlation id and its status is overwritten to `failed` (while the
handler still responds 200), so the status is not left unchanged. -/
theorem C1_terminal_status_overwritten :
    ([⟨7, "254712345678", 50, "success", some "ws_CO_1", some "QAB1"⟩] : List Tx).map
        Tx.status = ["success"]
    ∧ (callbackHandler
        ⟨[], [⟨7, "254712345678", 50, "success", some "ws_CO_1", some "QAB1"⟩], []⟩
        ⟨some "ws_CO_1", some 1, none⟩ 0 ⟨true, true, true⟩).db.txs.map
          Tx.status = ["failed"]
    ∧ (callbackHandler
        ⟨[], [⟨7, "254712345678", 50, "success", some "ws_CO_1", some "QAB1"⟩], []⟩
        ⟨some "ws_CO_1", some 1, none⟩ 0 ⟨true, true, true⟩).resp
      = .okMsg "Callback processed" := by
  decide

theorem map_status_setTxSuccess (txs : List Tx) (i : Nat) (rc : Option String)
    (h : ∀ t ∈ txs, t.id = i → t.status = "success") :
    (setTxSuccess txs i rc).map Tx.status = txs.map Tx.status := by
  unfold setTxSuccess
  rw [List.map_map]
  refine List.map_congr_left ?_
  intro t ht
  by_cases hid : t.id = i
  · simp only [Function.comp_apply, if_pos hid]
    exact (h t ht hid).symm
  · simp only [Function.comp_apply, if_neg hid]

theorem map_status_setTxFailed (txs : List Tx) (i : Nat)
    (h : ∀ t ∈ txs, t.id = i → t.status = "failed") :
    (setTxFailed txs i).map Tx.status = txs.map Tx.status := by
  unfold setTxFailed
  rw [List.map_map]
  refine List.map_congr_left ?_
  intro t ht
  by_cases hid : t.id = i
  · simp only [Function.comp_apply, if_pos hid]
    exact (h t ht hid).symm
  · simp only [Function.comp_apply, if_neg hid]

/-- C1 (amended): re-delivering a webhook with the same outcome as the
one that set the terminal status is a no-op on every transaction's
status and still responds 200 (the terminal value is merely rewritten);
the handler enforces nothing more — as the counterexample shows, a later
webhook with the opposite result code overwrites a terminal status.
The `hdup` hypothesis says rows sharing the found transaction's id share
its status (ids are a serial primary key). -/
theorem C1_same_outcome_redelivery_noop (db : DB) (cb : StkCallback) (now : Int)
    (router : RouterBehavior) (cid : String) (tx : Tx)
    (h1 : cb.checkoutId = some cid) (h2 : ¬ cid = "")
    (h3 : db.txs.find? (fun t => t.mpesa_request_id = some cid) = some tx)
    (hdup : ∀ t ∈ db.txs, t.id = tx.id → t.status = tx.status) :
    (∀ items, cb.resultCode = some 0 → cb.metadata = some items →
      tx.status = "success" →
      (callbackHandler db cb now router).db.txs.map Tx.status = db.txs.map Tx.status
      ∧ (callbackHandler db cb now router).resp = .okMsg "Callback processed")
    ∧ (∀ r, cb.resultCode = some r → r ≠ 0 → tx.status = "failed" →
      (callbackHandler db cb now router).db.txs.map Tx.status = db.txs.map Tx.status
      ∧ (callbackHandler db cb now router).resp = .okMsg "Callback processed") := by
  constructor
  · intro items h4 h5 hsucc
    have hs : ∀ t ∈ db.txs, t.id = tx.id → t.status = "success" :=
      fun t ht hi => (hdup t ht hi).trans hsucc
    have hred : (callbackHandler db cb now router).db.txs =
        setTxSuccess db.txs tx.id ((findItem items "MpesaReceiptNumber").map JVal.asParam)
        ∧ (callbackHandler db cb now router).resp = .okMsg "Callback processed" := by
      cases hplan : resolvePlan db.plans (findItem items "Amount") with
      | none => constructor <;> simp [callbackHandler, h1, h2, h3, h4, h5, hplan]
      | some plan => constructor <;> simp [callbackHandler, h1, h2, h3, h4, h5, hplan]
    constructor
    · rw [hred.1]
      exact map_status_setTxSuccess db.txs tx.id _ hs
    · exact hred.2
  · intro r h4 h5 hfail
    have hs : ∀ t ∈ db.txs, t.id = tx.id → t.status = "failed" :=
      fun t ht hi => (hdup t ht hi).trans hfail
    have hred : (callbackHandler db cb now router).db.txs = setTxFailed db.txs tx.id
        ∧ (callbackHandler db cb now router).resp = .okMsg "Callback processed" := by
      constructor <;> simp [callbackHandler, h1, h2, h3, h4, h5]
    constructor
    · rw [hred.1]
      exact map_status_setTxFailed db.txs tx.id hs
    · exact hred.2

/-- C1 (witness): duplicate delivery of the same success webhook on an
already-`success` transaction leaves the status column unchanged and
responds 200. -/
theorem C1_same_outcome_redelivery_noop_witness :
    (callbackHandler
        ⟨[⟨1, 50, 3600, some "1hr", none, true⟩],
         [⟨7, "254712345678", 50, "success", some "ws_CO_1", some "QAB1"⟩], []⟩
        ⟨some "ws_CO_1", some 0, some [("Amount", JVal.num 50)]⟩
        0 ⟨true, true, true⟩).db.txs.map Tx.status =
      ([⟨7, "254712345678", 50, "success", some "ws_CO_1", some "QAB1"⟩] : List Tx).map
        Tx.status
    ∧ (callbackHandler
        ⟨[⟨1, 50, 3600, some "1hr", none, true⟩],
         [⟨7, "254712345678", 50, "success", some "ws_CO_1", some "QAB1"⟩], []⟩
        ⟨some "ws_CO_1", some 0, some [("Amount", JVal.num 50)]⟩
        0 ⟨true, true, true⟩).resp = .okMsg "Callback processed" :=
  (C1_same_outcome_redelivery_noop
    ⟨[⟨1, 50, 3600, some "1hr", none, true⟩],
     [⟨7, "254712345678", 50, "success", some "ws_CO_1", some "QAB1"⟩], []⟩
    ⟨some "ws_CO_1", some 0, some [("Amount", JVal.num 50)]⟩
    0 ⟨true, true, true⟩ "ws_CO_1"
    ⟨7, "254712345678", 50, "success", some "ws_CO_1", some "QAB1"⟩
    rfl (by decide) (by decide) (by decide)).1
    [("Amount", JVal.num 50)] rfl rfl rfl

end HotspotBilling
